import Mathlib

/-!
Verification of the node-trafilatura CLI glue code.

The repository consists of four small Python units plus two entry scripts:
`arg_parser.get_args_from_command_line`, `file_reader.read_file_content`,
`error_handler.run_with_error_handling`, the entry point `extract-recall.py`,
and the auxiliary entry script `trafilatura-recall-extractor.py`.
This file shallowly embeds each of them: Python exceptions become an error
type carried in `Except`, the filesystem becomes an explicit map from path
strings to entries, the external trafilatura `extract` call is an opaque
function parameter, and each `sys.exit` call site is recorded in the process
outcome together with where in the source it occurs.
-/

namespace NodeTrafilatura

/-- Python exception kinds that the repository's code distinguishes:
`ValueError`, `FileNotFoundError`, `IOError`, and every other exception
(the `except Exception` catch-all in `error_handler.py`). Each carries
its message string. -/
inductive PyError where
  | valueError (msg : String)
  | fileNotFoundError (msg : String)
  | ioError (msg : String)
  | otherError (msg : String)
deriving DecidableEq, Repr

/-- The result of reading a file that exists and is a regular file:
either its decoded UTF-8 text, or the message of the underlying exception
raised by `path.read_text` (undecodable bytes, permissions, transient
I/O failure). -/
inductive ReadOutcome where
  | ok (content : String)
  | readFailure (cause : String)
deriving DecidableEq, Repr

/-- A filesystem entry at a path: a regular file with a read outcome, or
a non-regular-file entry such as a directory (`path.exists()` true,
`path.is_file()` false). -/
inductive FSEntry where
  | file (r : ReadOutcome)
  | dir
deriving DecidableEq, Repr

/-- The filesystem visible to one invocation: a map from path strings to
entries, `none` meaning `path.exists()` is false. -/
structure FileSystem where
  entries : String → Option FSEntry

/-- The external trafilatura collaborator: given the document content, the
`favor_recall` flag and the `output_format`, it returns the extracted text
(`none` models Python `None`, the no-content result) or raises. It is
opaque to this repository and is a parameter of the embedding. -/
def Extractor : Type :=
  String → Bool → String → Except PyError (Option String)

/-- Embeds `arg_parser.py`, `valid_formats = ["html", "txt"]`. -/
def valid_formats : List String := ["html", "txt"]

/-- Embeds `arg_parser.get_args_from_command_line`. The argument list is
Python's `sys.argv`, whose element 0 is the program name, so the guard
`len(sys.argv) < 3` means fewer than two positional arguments. On success
it returns `(sys.argv[1], sys.argv[2])`; both failure paths raise
`ValueError`. -/
def get_args_from_command_line (argv : List String) :
    Except PyError (String × String) :=
  if argv.length < 3 then
    .error (.valueError "Usage: <script> <file_path> <output_format>")
  else
    let file_path := argv.getD 1 ""
    let output_format := argv.getD 2 ""
    if output_format ∈ valid_formats then
      .ok (file_path, output_format)
    else
      .error (.valueError ("Invalid output format: " ++ output_format ++
        ". Valid formats: " ++ String.intercalate ", " valid_formats))

/-- Embeds `file_reader.read_file_content`: raises `FileNotFoundError` when
no entry exists at the path, `ValueError` when the entry is not a regular
file, and wraps any exception raised by `path.read_text(encoding="utf-8")`
as `IOError("Error reading file: " + cause)`. -/
def read_file_content (fs : FileSystem) (file_path : String) :
    Except PyError String :=
  match fs.entries file_path with
  | none => .error (.fileNotFoundError ("File not found: " ++ file_path))
  | some .dir => .error (.valueError ("Path is not a file: " ++ file_path))
  | some (.file (.readFailure cause)) =>
      .error (.ioError ("Error reading file: " ++ cause))
  | some (.file (.ok content)) => .ok content

/-- Outcome of `error_handler.run_with_error_handling`: the wrapped
callable's value on success, or the stderr line and the exit code passed
to `sys.exit` on failure. -/
inductive HandledResult (T : Type) where
  | success (value : T)
  | failure (stderrText : String) (exit_code : Nat)
deriving DecidableEq, Repr

/-- Embeds `error_handler.run_with_error_handling`: `ValueError`,
`FileNotFoundError` and `IOError` are each written as
`Error: <message>\n` to stderr, any other exception as
`Unexpected error: <message>\n`; every failure branch calls `sys.exit(1)`. -/
def run_with_error_handling {T : Type} (func : Except PyError T) :
    HandledResult T :=
  match func with
  | .ok v => .success v
  | .error (.valueError m) => .failure ("Error: " ++ m ++ "\n") 1
  | .error (.fileNotFoundError m) => .failure ("Error: " ++ m ++ "\n") 1
  | .error (.ioError m) => .failure ("Error: " ++ m ++ "\n") 1
  | .error (.otherError m) => .failure ("Unexpected error: " ++ m ++ "\n") 1

/-- Python `print(extracted)` where `extracted : Optional[str]`: printing
`None` writes the literal line `None`. -/
def pyPrint (x : Option String) : String :=
  (match x with | none => "None" | some s => s) ++ "\n"

/-- Source location of the `sys.exit` call that terminated the process:
inside `error_handler.run_with_error_handling`, a direct call inside the
entry script `trafilatura-recall-extractor.py`, or the interpreter
terminating on an exception no handler caught. -/
inductive ExitSite where
  | errorHandler
  | entryScript
  | interpreterUncaught
deriving DecidableEq, Repr

/-- Observable outcome of one process invocation: the list of strings
written to standard output (one element per `print` call), the text
written to standard error, the exit status, and the source site of the
explicit exit call if any (`none` for the implicit success exit). -/
structure ProcessResult where
  stdout : List String
  stderrText : String
  exit_code : Nat
  exit_site : Option ExitSite
deriving DecidableEq, Repr

/-- Embeds the inner `run` closure of `extract-recall.py`: parse the
arguments, read the file, call `extract(content, favor_recall=True,
output_format=output_format)`, and print the result once; any exception
propagates unmodified. -/
def extract_recall_run (extract : Extractor) (fs : FileSystem)
    (argv : List String) : Except PyError (List String) :=
  match get_args_from_command_line argv with
  | .error e => .error e
  | .ok (file_path, output_format) =>
    match read_file_content fs file_path with
    | .error e => .error e
    | .ok content =>
      match extract content true output_format with
      | .error e => .error e
      | .ok extracted => .ok [pyPrint extracted]

/-- Embeds `main` of `extract-recall.py`: the whole pipeline wrapped by
`run_with_error_handling`; on success the process exits implicitly with
status 0. -/
def extract_recall_main (extract : Extractor) (fs : FileSystem)
    (argv : List String) : ProcessResult :=
  match run_with_error_handling (extract_recall_run extract fs argv) with
  | .success out => ⟨out, "", 0, none⟩
  | .failure err code => ⟨[], err, code, some .errorHandler⟩

/-- Message carried by a Python exception, as `str(e)` would render it. -/
def pyErrorMessage : PyError → String
  | .valueError m => m
  | .fileNotFoundError m => m
  | .ioError m => m
  | .otherError m => m

/-- Embeds `main` of `trafilatura-recall-extractor.py`: the auxiliary
entry script, which performs its own argument and path checks and calls
`sys.exit(1)` directly on each failure, with no surrounding error handler;
an exception from the `extract` call would be uncaught and terminate the
interpreter (status 1, a traceback on stderr, abstracted here as the
exception message). Its `extract(content, favor_recall=True)` call passes
no output format. -/
def trafilatura_recall_extractor_main
    (extract0 : String → Bool → Except PyError (Option String))
    (fs : FileSystem) (argv : List String) : ProcessResult :=
  if argv.length < 2 then
    ⟨[], "Missing argument: file path\n", 1, some .entryScript⟩
  else
    let file_path := argv.getD 1 ""
    match fs.entries file_path with
    | none => ⟨[], "Invalid file path: " ++ file_path ++ "\n", 1,
        some .entryScript⟩
    | some .dir => ⟨[], "Invalid file path: " ++ file_path ++ "\n", 1,
        some .entryScript⟩
    | some (.file (.readFailure cause)) =>
        ⟨[], "Read error: " ++ cause ++ "\n", 1, some .entryScript⟩
    | some (.file (.ok content)) =>
      match extract0 content true with
      | .error e => ⟨[], pyErrorMessage e, 1, some .interpreterUncaught⟩
      | .ok extracted => ⟨[pyPrint extracted], "", 0, none⟩

/-! Concrete fixtures used to instantiate the general theorems. -/

/-- Sample filesystem: one readable UTF-8 file, one directory, one file
whose read raises, everything else absent. -/
def sampleFS : FileSystem :=
  ⟨fun p =>
    if p = "a.txt" then some (.file (.ok "<p>hi</p>"))
    else if p = "somedir" then some .dir
    else if p = "bad.txt" then some (.file (.readFailure "utf-8 codec error"))
    else none⟩

/-- Second sample filesystem: agrees with `sampleFS` at `a.txt` but differs
everywhere else. -/
def sampleFS2 : FileSystem :=
  ⟨fun p =>
    if p = "a.txt" then some (.file (.ok "<p>hi</p>"))
    else if p = "other.txt" then some (.file (.ok "unrelated"))
    else none⟩

/-- Sample collaborator: extracts `hi` from the sample document in `txt`
format and reports no content otherwise. -/
def sampleExtract : Extractor :=
  fun c _ f =>
    if c = "<p>hi</p>" ∧ f = "txt" then .ok (some "hi") else .ok none

/-- Sample collaborator that raises `ValueError("boom")` on every call. -/
def valueErrExtract : Extractor :=
  fun _ _ _ => .error (.valueError "boom")

/-- Sample collaborator that raises a generic exception on every call. -/
def genericErrExtract : Extractor :=
  fun _ _ _ => .error (.otherError "lxml internal error")

/-! Theorems settling the claims. -/

/-- Helper: string concatenation is associative. -/
theorem str_append_assoc (a b c : String) :
    a ++ b ++ c = a ++ (b ++ c) := by
  apply String.ext
  simp [String.data_append]

/-- C1: with a path naming a readable UTF-8 regular file and output format
`txt`, the program exits 0 and writes exactly one print of the
collaborator's extracted text to standard output; the extraction call is
keyed at `favor_recall = true`. -/
theorem c1_valid_txt_prints_extracted_once (extract : Extractor)
    (fs : FileSystem) (prog path content s : String)
    (hfs : fs.entries path = some (.file (.ok content)))
    (hex : extract content true "txt" = .ok (some s)) :
    extract_recall_main extract fs [prog, path, "txt"] =
      ⟨[s ++ "\n"], "", 0, none⟩ := by
  simp only [extract_recall_main, extract_recall_run,
    get_args_from_command_line, read_file_content, run_with_error_handling,
    pyPrint, valid_formats]
  norm_num [hfs, hex]

/-- Witness for C1 at the sample file and collaborator. -/
theorem c1_witness :
    sampleFS.entries "a.txt" = some (.file (.ok "<p>hi</p>")) ∧
    sampleExtract "<p>hi</p>" true "txt" = .ok (some "hi") ∧
    extract_recall_main sampleExtract sampleFS ["prog", "a.txt", "txt"] =
      ⟨["hi" ++ "\n"], "", 0, none⟩ :=
  ⟨by decide, rfl,
    c1_valid_txt_prints_extracted_once sampleExtract sampleFS
      "prog" "a.txt" "<p>hi</p>" "hi" (by decide) rfl⟩

/-- C4: with a valid output format, a path with no filesystem entry makes
the process exit 1 printing `Error: File not found: <path>`, and a path
whose entry is not a regular file makes it exit 1 printing
`Error: Path is not a file: <path>`; both exits happen in the error
handler. -/
theorem c4_missing_and_nonfile_paths (extract : Extractor) (fs : FileSystem)
    (prog path fmt : String) (hfmt : fmt ∈ valid_formats) :
    (fs.entries path = none →
      extract_recall_main extract fs [prog, path, fmt] =
        ⟨[], "Error: File not found: " ++ path ++ "\n", 1,
          some .errorHandler⟩) ∧
    (fs.entries path = some .dir →
      extract_recall_main extract fs [prog, path, fmt] =
        ⟨[], "Error: Path is not a file: " ++ path ++ "\n", 1,
          some .errorHandler⟩) := by
  constructor <;> intro hfs <;>
    simp only [extract_recall_main, extract_recall_run,
      get_args_from_command_line, read_file_content,
      run_with_error_handling] <;>
    norm_num [hfs, hfmt] <;>
    rw [← str_append_assoc] <;> rfl

/-- Witness for C4 at a missing path and at a directory of the sample
filesystem. -/
theorem c4_witness :
    ("txt" ∈ valid_formats) ∧
    sampleFS.entries "missing.txt" = none ∧
    sampleFS.entries "somedir" = some .dir ∧
    extract_recall_main sampleExtract sampleFS ["prog", "missing.txt", "txt"] =
      ⟨[], "Error: File not found: " ++ "missing.txt" ++ "\n", 1,
        some .errorHandler⟩ ∧
    extract_recall_main sampleExtract sampleFS ["prog", "somedir", "txt"] =
      ⟨[], "Error: Path is not a file: " ++ "somedir" ++ "\n", 1,
        some .errorHandler⟩ :=
  ⟨by decide, by decide, by decide,
    (c4_missing_and_nonfile_paths sampleExtract sampleFS
      "prog" "missing.txt" "txt" (by decide)).1 (by decide),
    (c4_missing_and_nonfile_paths sampleExtract sampleFS
      "prog" "somedir" "txt" (by decide)).2 (by decide)⟩

/-- C5: for every argument list long enough to carry an output format, any
format outside the set stored in `valid_formats` makes the parser raise an
invalid-usage `ValueError` whose message lists exactly the choices
`html, txt`. -/
theorem c5_invalid_format_message (argv : List String)
    (hlen : 3 ≤ argv.length) (hfmt : argv.getD 2 "" ∉ valid_formats) :
    get_args_from_command_line argv =
      .error (.valueError ("Invalid output format: " ++ argv.getD 2 "" ++
        ". Valid formats: html, txt")) := by
  simp only [get_args_from_command_line]
  rw [if_neg (by omega), if_neg hfmt, str_append_assoc]
  rfl

/-- Witness for C5 at the format `md`. -/
theorem c5_witness :
    3 ≤ (["prog", "a.txt", "md"] : List String).length ∧
    (["prog", "a.txt", "md"] : List String).getD 2 "" ∉ valid_formats ∧
    get_args_from_command_line ["prog", "a.txt", "md"] =
      .error (.valueError ("Invalid output format: " ++
        (["prog", "a.txt", "md"] : List String).getD 2 "" ++
        ". Valid formats: html, txt")) :=
  ⟨by decide, by decide,
    c5_invalid_format_message ["prog", "a.txt", "md"] (by decide) (by decide)⟩

/-- C6: an argument list with fewer than two positional arguments (length
below 3 counting the program name) makes the parser raise an invalid-usage
`ValueError`; with at least two positional arguments and a valid format it
returns the pair (first positional, second positional). -/
theorem c6_arity_and_success (argv : List String) :
    (argv.length < 3 →
      get_args_from_command_line argv =
        .error (.valueError "Usage: <script> <file_path> <output_format>")) ∧
    (3 ≤ argv.length → argv.getD 2 "" ∈ valid_formats →
      get_args_from_command_line argv = .ok (argv.getD 1 "", argv.getD 2 "")) := by
  constructor
  · intro h
    simp only [get_args_from_command_line]
    rw [if_pos h]
  · intro hlen hfmt
    simp only [get_args_from_command_line]
    rw [if_neg (by omega), if_pos hfmt]

/-- Witness for C6 at a one-element argument list and at a complete valid
one. -/
theorem c6_witness :
    (["prog"] : List String).length < 3 ∧
    get_args_from_command_line ["prog"] =
      .error (.valueError "Usage: <script> <file_path> <output_format>") ∧
    3 ≤ (["prog", "a.txt", "html"] : List String).length ∧
    (["prog", "a.txt", "html"] : List String).getD 2 "" ∈ valid_formats ∧
    get_args_from_command_line ["prog", "a.txt", "html"] =
      .ok ((["prog", "a.txt", "html"] : List String).getD 1 "",
        (["prog", "a.txt", "html"] : List String).getD 2 "") :=
  ⟨by decide, (c6_arity_and_success ["prog"]).1 (by decide),
    by decide, by decide,
    (c6_arity_and_success ["prog", "a.txt", "html"]).2 (by decide) (by decide)⟩

/-- C7: whenever the entry at a path is a regular file whose read raises,
whatever the underlying cause, the File Reader fails with the uniform
`IOError` kind wrapping that cause. -/
theorem c7_read_failure_wrapped (fs : FileSystem) (path cause : String)
    (h : fs.entries path = some (.file (.readFailure cause))) :
    read_file_content fs path =
      .error (.ioError ("Error reading file: " ++ cause)) := by
  simp only [read_file_content, h]

/-- Witness for C7 at the sample undecodable file. -/
theorem c7_witness :
    sampleFS.entries "bad.txt" =
      some (.file (.readFailure "utf-8 codec error")) ∧
    read_file_content sampleFS "bad.txt" =
      .error (.ioError ("Error reading file: " ++ "utf-8 codec error")) :=
  ⟨by decide, c7_read_failure_wrapped sampleFS "bad.txt"
    "utf-8 codec error" (by decide)⟩

/-- C2 counterexample: a `ValueError` raised by the collaborator is NOT
treated as an unexpected error — the handler formats it `Error: boom`,
contradicting the claim that every collaborator error, whatever its kind,
yields `Unexpected error: <message>`. -/
theorem c2_counterexample :
    valueErrExtract "<p>hi</p>" true "txt" = .error (.valueError "boom") ∧
    (extract_recall_main valueErrExtract sampleFS
      ["prog", "a.txt", "txt"]).stderrText = "Error: boom\n" ∧
    (extract_recall_main valueErrExtract sampleFS
      ["prog", "a.txt", "txt"]).stderrText ≠ "Unexpected error: boom\n" :=
  ⟨rfl, by decide, by decide⟩

/-- C2 amended: every error raised by the collaborator during the
extraction call propagates unmodified to the Error Handler and the process
exits 1; it is reported as `Unexpected error: <message>` exactly when it is
not one of the explicitly recognized kinds `ValueError`,
`FileNotFoundError`, `IOError`, which are reported as `Error: <message>`. -/
theorem c2_collaborator_error_by_kind (extract : Extractor)
    (fs : FileSystem) (prog path fmt content : String) (e : PyError)
    (hfmt : fmt ∈ valid_formats)
    (hfs : fs.entries path = some (.file (.ok content)))
    (hex : extract content true fmt = .error e) :
    extract_recall_main extract fs [prog, path, fmt] =
      ⟨[], (match e with
        | .otherError m => "Unexpected error: " ++ m ++ "\n"
        | .valueError m => "Error: " ++ m ++ "\n"
        | .fileNotFoundError m => "Error: " ++ m ++ "\n"
        | .ioError m => "Error: " ++ m ++ "\n"), 1,
        some .errorHandler⟩ := by
  simp only [extract_recall_main, extract_recall_run,
    get_args_from_command_line, read_file_content, run_with_error_handling]
  norm_num [hfs, hex, hfmt]
  cases e <;> rfl

/-- Witness for C2 amended at a generic collaborator exception. -/
theorem c2_witness :
    ("txt" ∈ valid_formats) ∧
    sampleFS.entries "a.txt" = some (.file (.ok "<p>hi</p>")) ∧
    genericErrExtract "<p>hi</p>" true "txt" =
      .error (.otherError "lxml internal error") ∧
    extract_recall_main genericErrExtract sampleFS ["prog", "a.txt", "txt"] =
      ⟨[], "Unexpected error: " ++ "lxml internal error" ++ "\n", 1,
        some .errorHandler⟩ :=
  ⟨by decide, by decide, rfl,
    c2_collaborator_error_by_kind genericErrExtract sampleFS
      "prog" "a.txt" "txt" "<p>hi</p>" (.otherError "lxml internal error")
      (by decide) (by decide) rfl⟩

/-- C3 counterexample: the auxiliary entry script
`trafilatura-recall-extractor.py`, invoked with no file-path argument,
terminates the process with status 1 through a `sys.exit(1)` call of its
own, outside the Error Handler — so termination is not confined to the
Error Handler across all components. -/
theorem c3_counterexample :
    (trafilatura_recall_extractor_main (fun _ _ => .ok none) sampleFS
      ["prog"]).exit_site = some .entryScript ∧
    (trafilatura_recall_extractor_main (fun _ _ => .ok none) sampleFS
      ["prog"]).exit_code = 1 ∧
    some ExitSite.entryScript ≠ some ExitSite.errorHandler :=
  ⟨rfl, rfl, by decide⟩

/-- C3 amended: within the `extract-recall.py` entry point and the
components it composes (Argument Parser, File Reader, Extraction Call),
process termination occurs only inside the Error Handler: every invocation
either exits implicitly on success or exits through the handler; the
auxiliary script `trafilatura-recall-extractor.py` is the exception, as it
exits the process directly. -/
theorem c3_pipeline_exits_only_in_handler (extract : Extractor)
    (fs : FileSystem) (argv : List String) :
    (extract_recall_main extract fs argv).exit_site = none ∨
    (extract_recall_main extract fs argv).exit_site =
      some .errorHandler := by
  unfold extract_recall_main
  cases run_with_error_handling (extract_recall_run extract fs argv) <;> simp

/-- Helper: the parser only ever returns the first and second positional
arguments. -/
theorem get_args_ok_shape (argv : List String) (p f : String)
    (h : get_args_from_command_line argv = .ok (p, f)) :
    p = argv.getD 1 "" ∧ f = argv.getD 2 "" := by
  simp only [get_args_from_command_line] at h
  split at h
  · exact absurd h (by simp)
  · split at h
    · injection h with h
      exact ⟨congrArg Prod.fst h.symm, congrArg Prod.snd h.symm⟩
    · exact absurd h (by simp)

/-- C8: the pipeline is a pure function of its declared inputs — two
invocations with the same argument list, the same collaborator, and
filesystems that agree on the named file yield identical process results,
whatever else the filesystems contain: no hidden state influences any
step. -/
theorem c8_deterministic_no_hidden_state (extract : Extractor)
    (fs fs2 : FileSystem) (argv : List String)
    (h : fs.entries (argv.getD 1 "") = fs2.entries (argv.getD 1 "")) :
    extract_recall_main extract fs argv =
      extract_recall_main extract fs2 argv := by
  cases hg : get_args_from_command_line argv with
  | error e =>
    simp only [extract_recall_main, extract_recall_run, hg]
  | ok pf =>
    obtain ⟨p, f⟩ := pf
    obtain ⟨hp, -⟩ := get_args_ok_shape argv p f hg
    simp only [extract_recall_main, extract_recall_run, hg,
      read_file_content]
    rw [hp, h]

/-- Witness for C8 at two filesystems agreeing on the sample file. -/
theorem c8_witness :
    sampleFS.entries ((["prog", "a.txt", "txt"] : List String).getD 1 "") =
      sampleFS2.entries
        ((["prog", "a.txt", "txt"] : List String).getD 1 "") ∧
    extract_recall_main sampleExtract sampleFS ["prog", "a.txt", "txt"] =
      extract_recall_main sampleExtract sampleFS2 ["prog", "a.txt", "txt"] :=
  ⟨by decide, c8_deterministic_no_hidden_state sampleExtract sampleFS
    sampleFS2 ["prog", "a.txt", "txt"] (by decide)⟩

/-- C9: when the arguments are valid, the file reads successfully, and the
collaborator returns the no-content result (`None`) instead of a string,
the program still exits 0 and prints the literal line `None` once. -/
theorem c9_none_result_prints_none_line (extract : Extractor)
    (fs : FileSystem) (prog path fmt content : String)
    (hfmt : fmt ∈ valid_formats)
    (hfs : fs.entries path = some (.file (.ok content)))
    (hex : extract content true fmt = .ok none) :
    extract_recall_main extract fs [prog, path, fmt] =
      ⟨["None" ++ "\n"], "", 0, none⟩ := by
  simp only [extract_recall_main, extract_recall_run,
    get_args_from_command_line, read_file_content, run_with_error_handling,
    pyPrint]
  norm_num [hfs, hex, hfmt]

/-- Witness for C9: the sample collaborator returns `None` for the `html`
format. -/
theorem c9_witness :
    ("html" ∈ valid_formats) ∧
    sampleFS.entries "a.txt" = some (.file (.ok "<p>hi</p>")) ∧
    sampleExtract "<p>hi</p>" true "html" = .ok none ∧
    extract_recall_main sampleExtract sampleFS ["prog", "a.txt", "html"] =
      ⟨["None" ++ "\n"], "", 0, none⟩ :=
  ⟨by decide, by decide, rfl,
    c9_none_result_prints_none_line sampleExtract sampleFS
      "prog" "a.txt" "html" "<p>hi</p>" (by decide) (by decide) rfl⟩

/-- C10: every argument past the second positional one is ignored — the
parser behaves identically with and without the extra arguments, and with
a valid second positional argument it returns exactly the pair of the
first two. -/
theorem c10_extra_args_ignored (a0 a1 a2 : String) (rest : List String) :
    get_args_from_command_line (a0 :: a1 :: a2 :: rest) =
      get_args_from_command_line [a0, a1, a2] ∧
    (a2 ∈ valid_formats →
      get_args_from_command_line (a0 :: a1 :: a2 :: rest) =
        .ok (a1, a2)) := by
  have key : ∀ l : List String, l.getD 1 "" = a1 → l.getD 2 "" = a2 →
      ¬ l.length < 3 →
      get_args_from_command_line l =
        (if a2 ∈ valid_formats then .ok (a1, a2) else
          .error (.valueError ("Invalid output format: " ++ a2 ++
            ". Valid formats: " ++ String.intercalate ", " valid_formats))) := by
    intro l h1 h2 h3
    simp only [get_args_from_command_line, h1, h2, if_neg h3]
  constructor
  · rw [key (a0 :: a1 :: a2 :: rest) rfl rfl (by simp),
      key [a0, a1, a2] rfl rfl (by simp)]
  · intro h
    rw [key (a0 :: a1 :: a2 :: rest) rfl rfl (by simp), if_pos h]

/-- Witness for C10 at two surplus arguments. -/
theorem c10_witness :
    ("txt" ∈ valid_formats) ∧
    get_args_from_command_line ["prog", "f.txt", "txt", "x", "y"] =
      get_args_from_command_line ["prog", "f.txt", "txt"] ∧
    get_args_from_command_line ["prog", "f.txt", "txt", "x", "y"] =
      .ok ("f.txt", "txt") :=
  ⟨by decide, (c10_extra_args_ignored "prog" "f.txt" "txt" ["x", "y"]).1,
    (c10_extra_args_ignored "prog" "f.txt" "txt" ["x", "y"]).2 (by decide)⟩

end NodeTrafilatura
